import Mathlib

set_option maxRecDepth 100000

/-!
Verification of the deAPI MCP server's OAuth 2.0 endpoints
(`src/oauth_endpoints.py`) and adaptive polling manager
(`src/polling_manager.py`, `src/config.py`), as a shallow embedding:
Python functions become Lean functions; the global authorization-code
dictionary becomes an explicit association-list state threaded through
the endpoint functions; wall-clock time and the randomly generated
authorization code become explicit parameters.
-/

namespace DeapiMCP

/-! ## Byte-level primitives: UTF-8, SHA-256, base64url

`verify_pkce_challenge` calls `hashlib.sha256(code_verifier.encode())`
and `base64.urlsafe_b64encode(...).rstrip("=")`; these are modelled by
an executable SHA-256 over byte lists (`Nat` arithmetic mod 2^32) and a
base64url encoder without padding. -/

/-- Truncate to a 32-bit word, as Python's `& 0xffffffff` discipline /
fixed-width hash arithmetic. -/
def w32 (x : Nat) : Nat := x % 4294967296

/-- 32-bit right rotation. -/
def rotr (n x : Nat) : Nat := w32 ((x >>> n) ||| (x <<< (32 - n)))

def bigSigma0 (x : Nat) : Nat := rotr 2 x ^^^ rotr 13 x ^^^ rotr 22 x

def bigSigma1 (x : Nat) : Nat := rotr 6 x ^^^ rotr 11 x ^^^ rotr 25 x

def smallSigma0 (x : Nat) : Nat := rotr 7 x ^^^ rotr 18 x ^^^ (x >>> 3)

def smallSigma1 (x : Nat) : Nat := rotr 17 x ^^^ rotr 19 x ^^^ (x >>> 10)

/-- SHA-256 choose function; `x ^^^ 0xffffffff` is bitwise complement on
32-bit words. -/
def ch (x y z : Nat) : Nat := (x &&& y) ^^^ ((x ^^^ 4294967295) &&& z)

def maj (x y z : Nat) : Nat := (x &&& y) ^^^ (x &&& z) ^^^ (y &&& z)

/-- SHA-256 round constants (decimal). -/
def shaK : List Nat :=
  [1116352408, 1899447441, 3049323471, 3921009573, 961987163, 1508970993,
   2453635748, 2870763221, 3624381080, 310598401, 607225278, 1426881987,
   1925078388, 2162078206, 2614888103, 3248222580, 3835390401, 4022224774,
   264347078, 604807628, 770255983, 1249150122, 1555081692, 1996064986,
   2554220882, 2821834349, 2952996808, 3210313671, 3336571891, 3584528711,
   113926993, 338241895, 666307205, 773529912, 1294757372, 1396182291,
   1695183700, 1986661051, 2177026350, 2456956037, 2730485921, 2820302411,
   3259730800, 3345764771, 3516065817, 3600352804, 4094571909, 275423344,
   430227734, 506948616, 659060556, 883997877, 958139571, 1322822218,
   1537002063, 1747873779, 1955562222, 2024104815, 2227730452, 2361852424,
   2428436474, 2756734187, 3204031479, 3329325298]

/-- SHA-256 initial hash value (decimal). -/
def shaH0 : List Nat :=
  [1779033703, 3144134277, 1013904242, 2773480762,
   1359893119, 2600822924, 528734635, 1541459225]

/-- Big-endian byte encoding of `x` on `n` bytes. -/
def beBytes : Nat → Nat → List Nat
  | 0, _ => []
  | n + 1, x => beBytes n (x >>> 8) ++ [x % 256]

/-- Group bytes into big-endian 32-bit words. -/
def toWords : List Nat → List Nat
  | a :: b :: c :: d :: rest => (((a * 256 + b) * 256 + c) * 256 + d) :: toWords rest
  | _ => []

/-- SHA-256 message padding: append `0x80`, zeros to 56 mod 64, then the
bit length on 8 big-endian bytes. -/
def padMessage (msg : List Nat) : List Nat :=
  let len := msg.length
  let zeros := (119 - len % 64) % 64
  msg ++ [0x80] ++ List.replicate zeros 0 ++ beBytes 8 (len * 8)

/-- Expand the 16 block words into the 64-entry message schedule. -/
def schedule (block : List Nat) : Array Nat :=
  (List.range 48).foldl
    (fun w i =>
      w.push (w32 (smallSigma1 (w.getD (i + 14) 0) + w.getD (i + 9) 0 +
        smallSigma0 (w.getD (i + 1) 0) + w.getD i 0)))
    (toWords block).toArray

/-- SHA-256 compression of one 64-byte block into the running hash
(8 words). -/
def processBlock (h : List Nat) (block : List Nat) : List Nat :=
  let w := schedule block
  let final := (List.range 64).foldl
    (fun st i =>
      match st with
      | [a, b, c, d, e, f, g, hh] =>
        let t1 := w32 (hh + bigSigma1 e + ch e f g + shaK.getD i 0 + w.getD i 0)
        let t2 := w32 (bigSigma0 a + maj a b c)
        [w32 (t1 + t2), a, b, c, w32 (d + t1), e, f, g]
      | l => l) h
  List.zipWith (fun x y => w32 (x + y)) h final

/-- Split a byte list into 64-byte chunks (fuel-structured so the kernel
can evaluate it; `fuel = l.length` always suffices). -/
def chunks64Fuel : Nat → List Nat → List (List Nat)
  | 0, _ => []
  | _, [] => []
  | fuel + 1, a :: l => (a :: l).take 64 :: chunks64Fuel fuel ((a :: l).drop 64)

/-- Split a byte list into 64-byte chunks. -/
def chunks64 (l : List Nat) : List (List Nat) := chunks64Fuel l.length l

/-- SHA-256 digest (32 bytes) of a byte list, per FIPS 180-4; models
`hashlib.sha256(...).digest()`. -/
def sha256 (msg : List Nat) : List Nat :=
  (((chunks64 (padMessage msg)).foldl processBlock shaH0).map (beBytes 4)).flatten

/-- UTF-8 encoding of one unicode scalar value. -/
def utf8Char (c : Char) : List Nat :=
  let n := c.toNat
  if n < 0x80 then [n]
  else if n < 0x800 then [0xC0 ||| (n >>> 6), 0x80 ||| (n &&& 0x3F)]
  else if n < 0x10000 then
    [0xE0 ||| (n >>> 12), 0x80 ||| ((n >>> 6) &&& 0x3F), 0x80 ||| (n &&& 0x3F)]
  else
    [0xF0 ||| (n >>> 18), 0x80 ||| ((n >>> 12) &&& 0x3F), 0x80 ||| ((n >>> 6) &&& 0x3F),
     0x80 ||| (n &&& 0x3F)]

/-- UTF-8 encoding of a string; models Python's `str.encode()`. -/
def utf8Encode (s : String) : List Nat := (s.data.map utf8Char).flatten

/-- The base64url alphabet (RFC 4648 §5), used by
`base64.urlsafe_b64encode`. -/
def b64Char (n : Nat) : Char :=
  "ABCDEFGHIJKLMNOPQRSTUVWXYZabcdefghijklmnopqrstuvwxyz0123456789-_".data.getD n 'A'

/-- base64url encoding without padding: `urlsafe_b64encode` followed by
`rstrip("=")`. -/
def b64urlNoPadAux : List Nat → List Char
  | [] => []
  | [a] => [b64Char (a >>> 2), b64Char ((a &&& 3) <<< 4)]
  | [a, b] =>
    [b64Char (a >>> 2), b64Char (((a &&& 3) <<< 4) ||| (b >>> 4)), b64Char ((b &&& 15) <<< 2)]
  | a :: b :: c :: rest =>
    b64Char (a >>> 2) :: b64Char (((a &&& 3) <<< 4) ||| (b >>> 4)) ::
      b64Char (((b &&& 15) <<< 2) ||| (c >>> 6)) :: b64Char (c &&& 63) :: b64urlNoPadAux rest

def b64urlNoPad (l : List Nat) : String := String.mk (b64urlNoPadAux l)

/-- `verify_pkce_challenge` from `oauth_endpoints.py`: SHA-256 of the
verifier, base64url-encoded without padding, compared for exact string
equality with the stored challenge. -/
def verify_pkce_challenge (code_verifier code_challenge : String) : Bool :=
  b64urlNoPad (sha256 (utf8Encode code_verifier)) == code_challenge

/-! ## OAuth constants and option-string truthiness -/

def DEFAULT_CLIENT_ID : String := "deapi-mcp"

def JWT_EXPIRATION_SECONDS : ℤ := 3600

def REFRESH_TOKEN_EXPIRATION_SECONDS : ℤ := 2592000

def AUTHORIZATION_CODE_EXPIRATION_SECONDS : ℚ := 600

def AUTHORIZATION_CODE_MAX_ENTRIES : Nat := 1000

/-- Python truthiness of an optional form/query value: `not x` is true
exactly when the value is absent or the empty string. -/
def truthy : Option String → Bool
  | none => false
  | some s => s != ""

/-! ## Authorization code store

`_authorization_codes` is a module-global `dict[str, dict]`; modelled as
an association list threaded explicitly through the endpoints.
`time.time()` is modelled as a rational-valued `now` parameter. -/

structure AuthCodeData where
  client_id : String
  redirect_uri : String
  code_challenge : String
  expires_at : ℚ
  state : Option String
deriving DecidableEq

abbrev AuthStore : Type := List (String × AuthCodeData)

/-- `del _authorization_codes[code]` (dict keys are unique, so removing
every binding of the key is the same operation). -/
def delKey (code : String) (store : AuthStore) : AuthStore :=
  store.filter (fun p => p.1 != code)

/-- `_authorization_codes[code] = data`: dict assignment replaces an
existing binding in place, otherwise appends. -/
def dictInsert (code : String) (data : AuthCodeData) (store : AuthStore) : AuthStore :=
  if (store.lookup code).isSome then
    store.map (fun p => if p.1 == code then (code, data) else p)
  else store ++ [(code, data)]

/-- `_prune_expired_authorization_codes`: drop every entry with
`now > expires_at`. -/
def prune_expired_authorization_codes (now : ℚ) (store : AuthStore) : AuthStore :=
  store.filter (fun p => decide (now ≤ p.2.expires_at))

/-! ## Redirect URI validation

`_validate_redirect_uri` calls `urllib.parse.urlparse` and checks
`parsed.scheme.lower() in {"http", "https"} and bool(parsed.netloc)`.
The scheme/netloc extraction of `urlparse` is modelled: a scheme is an
initial alphabetic-led run of letters/digits/`+`/`-`/`.` followed by
`:`; the netloc follows a `//` and extends to the next `/`, `?` or
`#`. -/

/-- ASCII lowercasing of one character (`str.lower()`; scheme and
job-type strings are ASCII). -/
def charLower (c : Char) : Char :=
  if 'A' ≤ c ∧ c ≤ 'Z' then Char.ofNat (c.toNat + 32) else c

/-- `str.lower()`, character by character. -/
def strLower (s : String) : String := String.mk (s.data.map charLower)

def isSchemeChar (c : Char) : Bool := c.isAlphanum || c == '+' || c == '-' || c == '.'

/-- Split off the URL scheme as `urlparse` does, returning
(scheme, rest-after-colon); no valid scheme yields `("", whole)`. -/
def splitScheme (s : List Char) : String × List Char :=
  match s.findIdx? (· = ':') with
  | none => ("", s)
  | some i =>
    let cand := s.take i
    if 1 ≤ i ∧ (cand.headD ' ').isAlpha ∧ cand.all isSchemeChar then
      (String.mk cand, s.drop (i + 1))
    else ("", s)

/-- The netloc of the part after the scheme: present only after `//`. -/
def netlocOf : List Char → List Char
  | '/' :: '/' :: t => t.takeWhile (fun c => c != '/' && c != '?' && c != '#')
  | _ => []

/-- `_validate_redirect_uri`: allowed scheme (`http`/`https`, case
insensitive) and non-empty netloc. -/
def validate_redirect_uri (redirect_uri : String) : Bool :=
  let parsed := splitScheme redirect_uri.data
  let scheme := strLower parsed.1
  (scheme == "http" || scheme == "https") && !(netlocOf parsed.2).isEmpty

/-! ## JWT model

`jwt.encode(payload, key, "HS256")` / `jwt.decode(token, key,
["HS256"], audience=...)`: a signed token is modelled as its claim set
together with the signing key; verification succeeds when the key
matches, the `aud` claim equals the expected audience, and the token is
unexpired (`now < exp`). Fernet encryption of the upstream token and
the issuer URL are abstracted as parameters `enc` and `iss`. -/

structure JwtPayload where
  iss : String
  sub : String
  aud : String
  exp : ℤ
  iat : ℤ
  deapi_token_enc : Option String
  token_type : Option String
deriving DecidableEq

structure SignedJwt where
  payload : JwtPayload
  key : String
deriving DecidableEq

/-- `jwt.decode(token, key, algorithms=["HS256"], audience=aud)`:
payload on success, `None` (here: failure propagated by the callers'
`except jwt.InvalidTokenError`) otherwise. -/
def jwt_decode (key aud : String) (now : ℤ) (token : SignedJwt) : Option JwtPayload :=
  if token.key = key ∧ token.payload.aud = aud ∧ now < token.payload.exp then
    some token.payload
  else none

/-- `create_jwt`: access token with audience `deapi-mcp-api`, 1 hour
validity, carrying the encrypted Deapi token. -/
def create_jwt (enc : String → String) (iss key : String) (now : ℤ)
    (deapi_token client_id : String) : SignedJwt :=
  { payload :=
      { iss := iss
        sub := client_id
        aud := "deapi-mcp-api"
        exp := now + JWT_EXPIRATION_SECONDS
        iat := now
        deapi_token_enc := some (enc deapi_token)
        token_type := none }
    key := key }

/-- `decode_jwt`: verify against the access audience `deapi-mcp-api`. -/
def decode_jwt (key : String) (now : ℤ) (token : SignedJwt) : Option JwtPayload :=
  jwt_decode key "deapi-mcp-api" now token

/-- `create_refresh_token`: audience `deapi-mcp-refresh`, 30 days
validity, explicit `token_type: "refresh"` marker. -/
def create_refresh_token (enc : String → String) (iss key : String) (now : ℤ)
    (deapi_token client_id : String) : SignedJwt :=
  { payload :=
      { iss := iss
        sub := client_id
        aud := "deapi-mcp-refresh"
        exp := now + REFRESH_TOKEN_EXPIRATION_SECONDS
        iat := now
        deapi_token_enc := some (enc deapi_token)
        token_type := some "refresh" }
    key := key }

/-- `decode_refresh_token`: verify against the refresh audience, then
reject any payload whose `token_type` claim is not `"refresh"`. -/
def decode_refresh_token (key : String) (now : ℤ) (token : SignedJwt) : Option JwtPayload :=
  match jwt_decode key "deapi-mcp-refresh" now token with
  | none => none
  | some payload =>
    if payload.token_type ≠ some "refresh" then none
    else some payload

/-! ## Authorization endpoint

`authorize_endpoint` reads query parameters, validates them in order,
and either redirects (`RedirectResponse` to `redirect_uri` with query
parameters, kept here in structured form) or returns a JSON error
(`JSONResponse` with `error`/optional `error_description` and an HTTP
status). The randomly generated `secrets.token_urlsafe(32)` code is an
explicit `auth_code` parameter. -/

structure AuthorizeRequest where
  client_id : Option String
  redirect_uri : Option String
  state : Option String
  code_challenge : Option String
  code_challenge_method : Option String
  response_type : Option String

inductive AuthorizeResponse where
  | redirect (location : String) (params : List (String × String))
  | jsonError (error : String) (error_description : Option String) (status : Nat)
deriving DecidableEq

/-- `if state: params["state"] = state` — append the state query
parameter when truthy. -/
def stateParam (state : Option String) : List (String × String) :=
  if truthy state then [("state", state.getD "")] else []

def authorize_endpoint (now : ℚ) (auth_code : String)
    (req : AuthorizeRequest) (store : AuthStore) : AuthorizeResponse × AuthStore :=
  -- Validate client_id
  if ¬ truthy req.client_id ∨ req.client_id ≠ some DEFAULT_CLIENT_ID then
    -- Redirect with error if we have redirect_uri
    if truthy req.redirect_uri then
      (.redirect (req.redirect_uri.getD "")
        ([("error", "unauthorized_client"), ("error_description", "Invalid client_id")] ++
          stateParam req.state), store)
    else
      (.jsonError "unauthorized_client" none 401, store)
  -- Validate redirect_uri
  else if ¬ truthy req.redirect_uri then
    (.jsonError "invalid_request" (some "redirect_uri is required") 400, store)
  else if ¬ validate_redirect_uri (req.redirect_uri.getD "") then
    (.jsonError "invalid_request" (some "redirect_uri must use http or https scheme") 400, store)
  -- Validate response_type
  else if req.response_type ≠ some "code" then
    (.redirect (req.redirect_uri.getD "")
      ([("error", "unsupported_response_type"),
        ("error_description", "Only 'code' response_type is supported")] ++
        stateParam req.state), store)
  -- Validate PKCE challenge
  else if ¬ truthy req.code_challenge ∨ req.code_challenge_method ≠ some "S256" then
    (.redirect (req.redirect_uri.getD "")
      ([("error", "invalid_request"), ("error_description", "PKCE with S256 is required")] ++
        stateParam req.state), store)
  else
    -- Prune expired authorization codes
    let store₁ := prune_expired_authorization_codes now store
    -- Enforce max entries
    if AUTHORIZATION_CODE_MAX_ENTRIES ≤ store₁.length then
      (.redirect (req.redirect_uri.getD "")
        ([("error", "server_error"), ("error_description", "Server is busy, please try again later")] ++
          stateParam req.state), store₁)
    else
      -- Store authorization code and redirect with it
      let data : AuthCodeData :=
        { client_id := req.client_id.getD ""
          redirect_uri := req.redirect_uri.getD ""
          code_challenge := req.code_challenge.getD ""
          expires_at := now + AUTHORIZATION_CODE_EXPIRATION_SECONDS
          state := req.state }
      (.redirect (req.redirect_uri.getD "") ([("code", auth_code)] ++ stateParam req.state),
        dictInsert auth_code data store₁)

/-! ## Token endpoint

`token_endpoint` parses form fields and dispatches on `grant_type`.
The `refresh_token` form field is modelled as the parsed signed token
(`none` covers both the absent and the empty field; a string that is
not a validly signed token corresponds to a `SignedJwt` whose key or
claims make verification fail). `decrypt_token` is abstracted as a
fallible parameter `dec`. In the model token creation cannot fail, so
the `server_error` catch branches are unreachable and not
represented. -/

structure TokenRequest where
  grant_type : Option String
  client_id : Option String
  client_secret : Option String
  code : Option String
  code_verifier : Option String
  redirect_uri : Option String
  refresh_token : Option SignedJwt

inductive TokenResponse where
  | err (error : String) (error_description : String) (status : Nat)
  | ok (access_token : SignedJwt) (token_type : String) (expires_in : ℤ) (refresh_token : SignedJwt)
deriving DecidableEq

def token_endpoint (enc : String → String) (dec : String → Option String)
    (iss key : String) (now : ℚ) (tnow : ℤ)
    (req : TokenRequest) (store : AuthStore) : TokenResponse × AuthStore :=
  -- Validate grant_type
  if req.grant_type ≠ some "authorization_code" ∧ req.grant_type ≠ some "client_credentials" ∧
      req.grant_type ≠ some "refresh_token" then
    (.err "unsupported_grant_type"
      "Supported grant types: authorization_code, client_credentials, refresh_token" 400, store)
  -- Validate client_id
  else if ¬ truthy req.client_id ∨ req.client_id ≠ some DEFAULT_CLIENT_ID then
    (.err "invalid_client" "Invalid client_id. Use 'deapi-mcp'" 401, store)
  -- Handle refresh_token grant
  else if req.grant_type = some "refresh_token" then
    match req.refresh_token with
    | none => (.err "invalid_request" "refresh_token is required" 400, store)
    | some rt =>
      match decode_refresh_token key tnow rt with
      | none => (.err "invalid_grant" "Invalid or expired refresh token" 400, store)
      | some payload =>
        if ¬ truthy payload.deapi_token_enc then
          (.err "invalid_grant" "Invalid refresh token" 400, store)
        else
          match dec (payload.deapi_token_enc.getD "") with
          | none => (.err "invalid_grant" "Invalid refresh token" 400, store)
          | some deapi_token =>
            (.ok (create_jwt enc iss key tnow deapi_token (req.client_id.getD ""))
              "Bearer" JWT_EXPIRATION_SECONDS
              (create_refresh_token enc iss key tnow deapi_token (req.client_id.getD "")), store)
  -- Handle authorization_code grant
  else if req.grant_type = some "authorization_code" then
    if ¬ truthy req.code then
      (.err "invalid_request" "code is required" 400, store)
    else
      let code := req.code.getD ""
      match store.lookup code with
      | none => (.err "invalid_grant" "Invalid authorization code" 400, store)
      | some auth_data =>
        -- Check expiration
        if auth_data.expires_at < now then
          (.err "invalid_grant" "Authorization code expired" 400, delKey code store)
        -- Verify redirect_uri matches
        else if req.redirect_uri ≠ some auth_data.redirect_uri then
          (.err "invalid_grant" "redirect_uri mismatch" 400, store)
        -- Verify PKCE
        else if ¬ truthy req.code_verifier then
          (.err "invalid_request" "code_verifier is required" 400, store)
        else if ¬ verify_pkce_challenge (req.code_verifier.getD "") auth_data.code_challenge then
          (.err "invalid_grant" "Invalid code_verifier" 400, store)
        else
          -- Delete authorization code (one-time use)
          let store₁ := delKey code store
          -- Client secret IS the Deapi token
          if ¬ truthy req.client_secret ∨ (req.client_secret.getD "").length < 10 then
            (.err "invalid_client" "Invalid client_secret (Deapi token)" 401, store₁)
          else
            (.ok (create_jwt enc iss key tnow (req.client_secret.getD "") (req.client_id.getD ""))
              "Bearer" JWT_EXPIRATION_SECONDS
              (create_refresh_token enc iss key tnow (req.client_secret.getD "")
                (req.client_id.getD "")), store₁)
  -- Handle client_credentials grant
  else
    if ¬ truthy req.client_secret then
      (.err "invalid_client" "client_secret is required (your Deapi API token)" 401, store)
    else if (req.client_secret.getD "").length < 10 then
      (.err "invalid_client" "client_secret appears invalid (Deapi API token expected)" 401, store)
    else
      (.ok (create_jwt enc iss key tnow (req.client_secret.getD "") (req.client_id.getD ""))
        "Bearer" JWT_EXPIRATION_SECONDS
        (create_refresh_token enc iss key tnow (req.client_secret.getD "")
          (req.client_id.getD "")), store)

/-! ## Polling configuration (`config.py`)

Float-valued delays/timeouts are modelled as rationals. -/

structure PollingConfig where
  initial_delay : ℚ
  max_delay : ℚ
  timeout : ℚ
  backoff_factor : ℚ
deriving DecidableEq

def polling_audio : PollingConfig := ⟨1, 5, 300, 3/2⟩

def polling_image : PollingConfig := ⟨2, 8, 300, 3/2⟩

def polling_video : PollingConfig := ⟨5, 30, 900, 3/2⟩

def polling_embedding : PollingConfig := ⟨1/2, 3, 120, 3/2⟩

def polling_default : PollingConfig := ⟨2, 10, 300, 3/2⟩

/-- Does the second list start with the first? -/
def startsWith : List Char → List Char → Bool
  | [], _ => true
  | _ :: _, [] => false
  | a :: as, b :: bs => a == b && startsWith as bs

/-- Python's `needle in hay` substring test. -/
def hasSub (needle : List Char) : List Char → Bool
  | [] => needle.isEmpty
  | c :: rest => startsWith needle (c :: rest) || hasSub needle rest

/-- `Settings.get_polling_config`: select the profile by substring
match on the lowercased job type. -/
def get_polling_config (job_type : String) : PollingConfig :=
  let j := (strLower job_type).data
  if hasSub "audio".data j || hasSub "speech".data j then polling_audio
  else if hasSub "image".data j || hasSub "img".data j then polling_image
  else if hasSub "video".data j then polling_video
  else if hasSub "embedding".data j then polling_embedding
  else polling_default

/-! ## Polling state machine (`polling_manager.py`)

`poll_until_complete` is a `while True` loop: it increments the attempt
counter, checks the wall-clock timeout, performs one status check (the
upstream `get_job_status` call is a stub, a function from the attempt
number to either a status payload or a raised `DeapiAPIError`), and
either returns a `ToolResult`, raises `PollingTimeoutError`, or sleeps
and loops. Time is modelled by the accumulated sleep durations (status
checks are instantaneous); the loop is embedded with explicit fuel,
returning `none` only if the fuel runs out before the loop exits. The
list of sleep durations performed so far is threaded through and
returned alongside the outcome. -/

inductive JobStatusM where
  | pending
  | processing
  | done
  | failed
deriving DecidableEq

structure JobStatusData where
  status : JobStatusM
  progress : Option ℚ
  result : Option String
  result_url : Option String
deriving DecidableEq

/-- A raised `DeapiAPIError`: `str(e)` is the message, plus the optional
HTTP status code. -/
structure APIError where
  message : String
  status_code : Option Nat
deriving DecidableEq

/-- One behaviour of the stubbed status check at a given attempt. -/
inductive PollStep where
  | ok (data : JobStatusData)
  | raise (e : APIError)

/-- The `error` strings a polling `ToolResult` can carry, kept in
structured form (each constructor is one f-string in the source). -/
inductive PollErrMsg where
  | jobFailed (job_id : String)
  | jobNotFound
  | apiError (message : String)
  | timedOutMsg (job_id : String) (elapsed timeout : ℚ)
deriving DecidableEq

/-- `ToolResult` (schemas.py) as produced by the polling layer;
`metadata` is the optional `{"elapsed_time": ..., "attempts": ...}`
dictionary. -/
structure ToolResultM where
  success : Bool
  job_id : Option String
  status : Option JobStatusM
  result : Option String
  result_url : Option String
  error : Option PollErrMsg
  metadata : Option (ℚ × Nat)
deriving DecidableEq

/-- Outcome of `poll_until_complete`: a returned `ToolResult` or a
raised `PollingTimeoutError` (carrying the data in its message). -/
inductive PollOutcome where
  | returned (r : ToolResultM)
  | timedOutExc (job_id : String) (elapsed timeout : ℚ)
deriving DecidableEq

/-- `PollingManager._calculate_next_delay` (its `attempt` argument is
unused in the source too). -/
def calculate_next_delay (cfg : PollingConfig) (current_delay : ℚ) (_attempt : Nat) : ℚ :=
  min (current_delay * cfg.backoff_factor) cfg.max_delay

def pollLoop (cfg : PollingConfig) (stub : Nat → PollStep) (job_id : String) :
    Nat → Nat → ℚ → ℚ → List ℚ → Option (PollOutcome × List ℚ)
  | 0, _, _, _, _ => none
  | fuel + 1, attempt₀, elapsed, current_delay, sleeps =>
    let attempt := attempt₀ + 1
    -- Check timeout
    if cfg.timeout < elapsed then
      some (.timedOutExc job_id elapsed cfg.timeout, sleeps)
    else
      match stub attempt with
      | .ok status_data =>
        -- Check if job is complete
        if status_data.status = .done then
          some (.returned
            { success := true, job_id := some job_id, status := some .done,
              result := status_data.result, result_url := status_data.result_url,
              error := none, metadata := some (elapsed, attempt) }, sleeps)
        else if status_data.status = .failed then
          some (.returned
            { success := false, job_id := some job_id, status := some .failed,
              result := none, result_url := none,
              error := some (.jobFailed job_id), metadata := some (elapsed, attempt) }, sleeps)
        else
          -- Job still in progress, wait before next poll
          pollLoop cfg stub job_id fuel attempt (elapsed + current_delay)
            (calculate_next_delay cfg current_delay attempt) (sleeps ++ [current_delay])
      | .raise e =>
        -- If it's a 404, the job might not exist
        if e.status_code = some 404 then
          some (.returned
            { success := false, job_id := some job_id, status := none,
              result := none, result_url := none,
              error := some .jobNotFound, metadata := some (elapsed, attempt) }, sleeps)
        -- For other errors, retry with delay
        else if attempt < 3 then
          pollLoop cfg stub job_id fuel attempt (elapsed + current_delay)
            (calculate_next_delay cfg current_delay attempt) (sleeps ++ [current_delay])
        else
          -- Too many errors, give up
          some (.returned
            { success := false, job_id := some job_id, status := none,
              result := none, result_url := none,
              error := some (.apiError e.message), metadata := some (elapsed, attempt) }, sleeps)

/-- `PollingManager.poll_until_complete`. -/
def poll_until_complete (cfg : PollingConfig) (stub : Nat → PollStep) (job_id : String)
    (fuel : Nat) : Option (PollOutcome × List ℚ) :=
  pollLoop cfg stub job_id fuel 0 0 cfg.initial_delay []

/-- `PollingManager.poll_with_context`: forwards the returned
`ToolResult`, and converts a raised `PollingTimeoutError` into
`ToolResult(success=False, job_id=job_id, error=str(e))` — every other
field, including `metadata`, is left at its `None` default. -/
def poll_with_context (cfg : PollingConfig) (stub : Nat → PollStep) (job_id : String)
    (fuel : Nat) : Option (ToolResultM × List ℚ) :=
  match poll_until_complete cfg stub job_id fuel with
  | none => none
  | some (.returned r, sleeps) => some (r, sleeps)
  | some (.timedOutExc jid elapsed tmo, sleeps) =>
    some ({ success := false, job_id := some jid, status := none, result := none,
            result_url := none, error := some (.timedOutMsg jid elapsed tmo),
            metadata := none }, sleeps)

/-- Closed form of the delay slept after the k-th status check
(0-indexed): `initial_delay * backoff_factor^k` capped at
`max_delay`. -/
def schedDelay (cfg : PollingConfig) (k : Nat) : ℚ :=
  min (cfg.initial_delay * cfg.backoff_factor ^ k) cfg.max_delay

/-- Wall-clock time elapsed before the (k+1)-th status check: the sum of
the first k scheduled delays. -/
def schedElapsed (cfg : PollingConfig) (k : Nat) : ℚ :=
  ((List.range k).map (schedDelay cfg)).sum

/-! ## Reachable states of the authorization code store

The store is module-global state mutated only by the two endpoints;
a store is reachable if it arises from the empty initial dictionary by
any interleaving of `/authorize` and `/token` requests. -/

inductive AuthStep : AuthStore → AuthStore → Prop where
  | authorize (now : ℚ) (auth_code : String) (req : AuthorizeRequest) (s : AuthStore) :
      AuthStep s (authorize_endpoint now auth_code req s).2
  | token (enc : String → String) (dec : String → Option String) (iss key : String)
      (now : ℚ) (tnow : ℤ) (req : TokenRequest) (s : AuthStore) :
      AuthStep s (token_endpoint enc dec iss key now tnow req s).2

def ReachableStore (s : AuthStore) : Prop :=
  Relation.ReflTransGen AuthStep [] s

/-! # Theorems -/

/-- **C5.** Audience isolation: a refresh token never verifies as an
access token, an access token never verifies as a refresh token, and
every payload accepted by `decode_refresh_token` carries the
`token_type = "refresh"` marker. -/
theorem C5_audience_isolation :
    (∀ (enc : String → String) (iss key : String) (now now' : ℤ) (tok cid : String),
      decode_jwt key now' (create_refresh_token enc iss key now tok cid) = none) ∧
    (∀ (enc : String → String) (iss key : String) (now now' : ℤ) (tok cid : String),
      decode_refresh_token key now' (create_jwt enc iss key now tok cid) = none) ∧
    (∀ (key : String) (now : ℤ) (t : SignedJwt),
      (decode_refresh_token key now t).all (fun p => p.token_type == some "refresh") = true) := by
  refine ⟨?_, ?_, ?_⟩
  · intro enc iss key now now' tok cid
    simp [decode_jwt, jwt_decode, create_refresh_token]
  · intro enc iss key now now' tok cid
    simp [decode_refresh_token, jwt_decode, create_jwt]
  · intro key now t
    unfold decode_refresh_token
    cases h : jwt_decode key "deapi-mcp-refresh" now t with
    | none => rfl
    | some payload =>
      by_cases ht : payload.token_type = some "refresh"
      · simp [ht]
      · simp [ht]

/-- **C2 counterexample.** An `/authorize` request whose `client_id` is
invalid — a failure occurring before `redirect_uri` has been validated —
is answered with a redirect to the (unvalidated) `redirect_uri`, not
with a direct JSON error, whenever a redirect_uri is present. -/
theorem C2_counterexample :
    (authorize_endpoint 0 "freshcode"
      { client_id := some "evil-client", redirect_uri := some "https://attacker.example/cb",
        state := none, code_challenge := none, code_challenge_method := none,
        response_type := none } []).1 =
      AuthorizeResponse.redirect "https://attacker.example/cb"
        [("error", "unauthorized_client"), ("error_description", "Invalid client_id")] := by
  decide

/-- **C2 (amended).** Error-channel separation as the code implements
it: an invalid `client_id` is reported via a redirect to the
(unvalidated) `redirect_uri` whenever that parameter is non-empty, and
as a direct JSON 401 only when it is absent or empty; with a valid
`client_id`, a missing/empty or invalid-scheme `redirect_uri` yields a
direct JSON 400; once `client_id` and `redirect_uri` have both been
validated, every response (error or success) is a redirect to
`redirect_uri`. -/
theorem C2_error_channels (now : ℚ) (ac : String) (req : AuthorizeRequest) (store : AuthStore) :
    ((¬ truthy req.client_id ∨ req.client_id ≠ some DEFAULT_CLIENT_ID) →
      (truthy req.redirect_uri = true →
        (authorize_endpoint now ac req store).1 =
          .redirect (req.redirect_uri.getD "")
            ([("error", "unauthorized_client"), ("error_description", "Invalid client_id")] ++
              stateParam req.state)) ∧
      (truthy req.redirect_uri = false →
        (authorize_endpoint now ac req store).1 = .jsonError "unauthorized_client" none 401)) ∧
    (req.client_id = some DEFAULT_CLIENT_ID →
      (truthy req.redirect_uri = false →
        (authorize_endpoint now ac req store).1 =
          .jsonError "invalid_request" (some "redirect_uri is required") 400) ∧
      (truthy req.redirect_uri = true →
        validate_redirect_uri (req.redirect_uri.getD "") = false →
        (authorize_endpoint now ac req store).1 =
          .jsonError "invalid_request" (some "redirect_uri must use http or https scheme") 400) ∧
      (truthy req.redirect_uri = true →
        validate_redirect_uri (req.redirect_uri.getD "") = true →
        ∃ params, (authorize_endpoint now ac req store).1 =
          .redirect (req.redirect_uri.getD "") params)) := by
  constructor
  · intro hbad
    constructor
    · intro hru
      unfold authorize_endpoint
      rw [if_pos hbad, if_pos hru]
    · intro hru
      unfold authorize_endpoint
      rw [if_pos hbad, if_neg (by simp [hru])]
  · intro hcid
    have hguard : ¬ (¬ truthy req.client_id = true ∨ req.client_id ≠ some DEFAULT_CLIENT_ID) := by
      simp [hcid, truthy, DEFAULT_CLIENT_ID]
    refine ⟨?_, ?_, ?_⟩
    · intro hru
      unfold authorize_endpoint
      rw [if_neg hguard, if_pos (by simp [hru])]
    · intro hru hval
      unfold authorize_endpoint
      rw [if_neg hguard, if_neg (by simp [hru]), if_pos (by simp [hval])]
    · intro hru hval
      unfold authorize_endpoint
      rw [if_neg hguard, if_neg (by simp [hru]), if_neg (by simp [hval])]
      split
      · exact ⟨_, rfl⟩
      · split
        · exact ⟨_, rfl⟩
        · dsimp only
          split
          · exact ⟨_, rfl⟩
          · exact ⟨_, rfl⟩

theorem truthy_some (s : String) : truthy (some s) = (s != "") := rfl

theorem truthy_none : truthy none = false := rfl

/-- Deleting a code removes it from the store: lookups of it fail
afterwards. -/
theorem lookup_delKey (c : String) (store : AuthStore) : (delKey c store).lookup c = none := by
  induction store with
  | nil => rfl
  | cons p t ih =>
    obtain ⟨k, v⟩ := p
    by_cases h : k = c
    · have h0 : delKey c ((k, v) :: t) = delKey c t := by
        simp [delKey, List.filter_cons, h]
      rw [h0]; exact ih
    · have h1 : delKey c ((k, v) :: t) = (k, v) :: delKey c t := by
        simp [delKey, List.filter_cons, h]
      have hck : (c == k) = false := by simp [Ne.symm h]
      rw [h1, List.lookup, hck]
      exact ih

def TokenResponse.isOk : TokenResponse → Bool
  | .ok _ _ _ _ => true
  | .err _ _ _ => false

/-- **C4 counterexample.** A token request whose `code_verifier` is
missing (all other parameters valid) is answered with
`invalid_request`, not `invalid_grant` as the claim states. -/
theorem C4_counterexample :
    (token_endpoint (fun t => t) (fun _ => none) "https://api.deapi.ai" "k" 0 0
      { grant_type := some "authorization_code", client_id := some "deapi-mcp",
        client_secret := some "0123456789abc", code := some "codeA", code_verifier := none,
        redirect_uri := some "https://cb.example/x", refresh_token := none }
      [("codeA",
        { client_id := "deapi-mcp", redirect_uri := "https://cb.example/x",
          code_challenge := "irrelevant", expires_at := 1000, state := none })]).1 =
      TokenResponse.err "invalid_request" "code_verifier is required" 400 ∧
      "invalid_request" ≠ "invalid_grant" := by
  exact ⟨by decide, by decide⟩

/-- **C4 (amended).** PKCE failures at the token endpoint: a missing or
empty `code_verifier` is rejected with `invalid_request` (400), while a
present verifier that does not match the stored challenge is rejected
with `invalid_grant` (400). -/
theorem C4_pkce_error_codes
    (enc : String → String) (dec : String → Option String) (iss key : String)
    (now : ℚ) (tnow : ℤ) (store : AuthStore) (c : String) (ad : AuthCodeData)
    (req : TokenRequest)
    (hgrant : req.grant_type = some "authorization_code")
    (hcid : req.client_id = some DEFAULT_CLIENT_ID)
    (hcode : req.code = some c) (hc : c ≠ "")
    (hlookup : store.lookup c = some ad)
    (hexp : ¬ ad.expires_at < now)
    (hru : req.redirect_uri = some ad.redirect_uri) :
    (truthy req.code_verifier = false →
      (token_endpoint enc dec iss key now tnow req store).1 =
        .err "invalid_request" "code_verifier is required" 400) ∧
    (∀ v, req.code_verifier = some v → v ≠ "" →
      verify_pkce_challenge v ad.code_challenge = false →
      (token_endpoint enc dec iss key now tnow req store).1 =
        .err "invalid_grant" "Invalid code_verifier" 400) := by
  constructor
  · intro hcv
    simp [token_endpoint, hgrant, hcid, hcode, hc, hlookup, hexp, hru, hcv,
      truthy_some, DEFAULT_CLIENT_ID]
  · intro v hcv hv hpk
    simp [token_endpoint, hgrant, hcid, hcode, hc, hlookup, hexp, hru, hcv, hv, hpk,
      truthy_some, DEFAULT_CLIENT_ID]

/-- **C1.** One-time authorization code: with a stored, unexpired code
and a token request carrying that code, the stored redirect_uri, a
verifier matching the stored challenge and a valid client_secret, the
first request succeeds and removes the code from the store, and a
second request presenting the same code fails with `invalid_grant`. -/
theorem C1_one_time_code
    (enc : String → String) (dec : String → Option String) (iss key : String)
    (now : ℚ) (tnow : ℤ) (store : AuthStore) (c v s : String) (ad : AuthCodeData)
    (req : TokenRequest)
    (hgrant : req.grant_type = some "authorization_code")
    (hcid : req.client_id = some DEFAULT_CLIENT_ID)
    (hcode : req.code = some c) (hc : c ≠ "")
    (hcv : req.code_verifier = some v) (hv : v ≠ "")
    (hsec : req.client_secret = some s) (hs : s ≠ "") (hslen : 10 ≤ s.length)
    (hlookup : store.lookup c = some ad)
    (hexp : ¬ ad.expires_at < now)
    (hru : req.redirect_uri = some ad.redirect_uri)
    (hpkce : verify_pkce_challenge v ad.code_challenge = true) :
    (token_endpoint enc dec iss key now tnow req store).1 =
      .ok (create_jwt enc iss key tnow s DEFAULT_CLIENT_ID) "Bearer" JWT_EXPIRATION_SECONDS
        (create_refresh_token enc iss key tnow s DEFAULT_CLIENT_ID) ∧
    ((token_endpoint enc dec iss key now tnow req store).2).lookup c = none ∧
    (token_endpoint enc dec iss key now tnow req
        (token_endpoint enc dec iss key now tnow req store).2).1 =
      .err "invalid_grant" "Invalid authorization code" 400 := by
  have hsl : ¬ s.length < 10 := by omega
  have hrun : token_endpoint enc dec iss key now tnow req store =
      (.ok (create_jwt enc iss key tnow s DEFAULT_CLIENT_ID) "Bearer" JWT_EXPIRATION_SECONDS
        (create_refresh_token enc iss key tnow s DEFAULT_CLIENT_ID), delKey c store) := by
    simp [token_endpoint, hgrant, hcid, hcode, hc, hcv, hv, hsec, hs, hsl, hlookup, hexp, hru,
      hpkce, truthy_some, DEFAULT_CLIENT_ID]
  have hnone : (delKey c store).lookup c = none := lookup_delKey c store
  refine ⟨by rw [hrun], by rw [hrun]; exact hnone, ?_⟩
  rw [hrun]
  simp [token_endpoint, hgrant, hcid, hcode, hc, hnone, truthy_some, DEFAULT_CLIENT_ID]

/-- **C3.** PKCE binding: with a stored, unexpired code and otherwise
valid token-request parameters, redemption succeeds if and only if the
base64url encoding without padding of SHA-256(code_verifier) is exactly
string-equal to the stored challenge. -/
theorem C3_pkce_binding
    (enc : String → String) (dec : String → Option String) (iss key : String)
    (now : ℚ) (tnow : ℤ) (store : AuthStore) (c v s : String) (ad : AuthCodeData)
    (req : TokenRequest)
    (hgrant : req.grant_type = some "authorization_code")
    (hcid : req.client_id = some DEFAULT_CLIENT_ID)
    (hcode : req.code = some c) (hc : c ≠ "")
    (hcv : req.code_verifier = some v) (hv : v ≠ "")
    (hsec : req.client_secret = some s) (hs : s ≠ "") (hslen : 10 ≤ s.length)
    (hlookup : store.lookup c = some ad)
    (hexp : ¬ ad.expires_at < now)
    (hru : req.redirect_uri = some ad.redirect_uri) :
    (token_endpoint enc dec iss key now tnow req store).1.isOk = true ↔
      b64urlNoPad (sha256 (utf8Encode v)) = ad.code_challenge := by
  have hsl : ¬ s.length < 10 := by omega
  by_cases hpk : verify_pkce_challenge v ad.code_challenge = true
  · have heq : b64urlNoPad (sha256 (utf8Encode v)) = ad.code_challenge := by
      simpa [verify_pkce_challenge] using hpk
    have hrun : token_endpoint enc dec iss key now tnow req store =
        (.ok (create_jwt enc iss key tnow s DEFAULT_CLIENT_ID) "Bearer" JWT_EXPIRATION_SECONDS
          (create_refresh_token enc iss key tnow s DEFAULT_CLIENT_ID), delKey c store) := by
      simp [token_endpoint, hgrant, hcid, hcode, hc, hcv, hv, hsec, hs, hsl, hlookup, hexp, hru,
        hpk, truthy_some, DEFAULT_CLIENT_ID]
    rw [hrun]
    simp [TokenResponse.isOk, heq]
  · have hne : ¬ b64urlNoPad (sha256 (utf8Encode v)) = ad.code_challenge := by
      intro h
      exact hpk (by simpa [verify_pkce_challenge] using h)
    have hpkf : verify_pkce_challenge v ad.code_challenge = false := by
      simpa using hpk
    have hrun : token_endpoint enc dec iss key now tnow req store =
        (.err "invalid_grant" "Invalid code_verifier" 400, store) := by
      simp [token_endpoint, hgrant, hcid, hcode, hc, hcv, hv, hpkf, hlookup, hexp, hru,
        truthy_some, DEFAULT_CLIENT_ID]
    rw [hrun]
    simp [TokenResponse.isOk, hne]

/-- **C10.** Non-atomic redemption: with a valid code, redirect_uri and
verifier but an absent or too-short `client_secret`, the token endpoint
answers `invalid_client` (401) yet has already consumed the code, so a
retry of the same request with a valid secret fails with
`invalid_grant`. -/
theorem C10_code_consumed_before_secret_check
    (enc : String → String) (dec : String → Option String) (iss key : String)
    (now : ℚ) (tnow : ℤ) (store : AuthStore) (c v : String) (ad : AuthCodeData)
    (req req' : TokenRequest)
    (hgrant : req.grant_type = some "authorization_code")
    (hcid : req.client_id = some DEFAULT_CLIENT_ID)
    (hcode : req.code = some c) (hc : c ≠ "")
    (hcv : req.code_verifier = some v) (hv : v ≠ "")
    (hlookup : store.lookup c = some ad)
    (hexp : ¬ ad.expires_at < now)
    (hru : req.redirect_uri = some ad.redirect_uri)
    (hpkce : verify_pkce_challenge v ad.code_challenge = true)
    (hbadsec : truthy req.client_secret = false ∨ (req.client_secret.getD "").length < 10)
    (hgrant' : req'.grant_type = some "authorization_code")
    (hcid' : req'.client_id = some DEFAULT_CLIENT_ID)
    (hcode' : req'.code = some c) :
    (token_endpoint enc dec iss key now tnow req store).1 =
      .err "invalid_client" "Invalid client_secret (Deapi token)" 401 ∧
    ((token_endpoint enc dec iss key now tnow req store).2).lookup c = none ∧
    (token_endpoint enc dec iss key now tnow req'
        (token_endpoint enc dec iss key now tnow req store).2).1 =
      .err "invalid_grant" "Invalid authorization code" 400 := by
  have hrun : token_endpoint enc dec iss key now tnow req store =
      (.err "invalid_client" "Invalid client_secret (Deapi token)" 401, delKey c store) := by
    rcases hbadsec with h | h
    · simp [token_endpoint, hgrant, hcid, hcode, hc, hcv, hv, hlookup, hexp, hru, hpkce,
        truthy_some, DEFAULT_CLIENT_ID, h]
    · simp [token_endpoint, hgrant, hcid, hcode, hc, hcv, hv, hlookup, hexp, hru, hpkce,
        truthy_some, DEFAULT_CLIENT_ID, h]
  have hnone : (delKey c store).lookup c = none := lookup_delKey c store
  refine ⟨by rw [hrun], by rw [hrun]; exact hnone, ?_⟩
  rw [hrun]
  simp [token_endpoint, hgrant', hcid', hcode', hc, hnone, truthy_some, DEFAULT_CLIENT_ID]

/-! ## Concrete sample data for witnesses

`"a"` hashes (SHA-256, base64url without padding) to
`ypeBEsobvcr6wjGzmiPcTaeG7_gUfE5yuYB3ha_uSLs`, giving a concrete
verifier/challenge pair. -/

def sampleEnc : String → String := fun t => t

def sampleDec : String → Option String := fun _ => none

def adW : AuthCodeData :=
  { client_id := "deapi-mcp", redirect_uri := "https://cb.example/x",
    code_challenge := "ypeBEsobvcr6wjGzmiPcTaeG7_gUfE5yuYB3ha_uSLs",
    expires_at := 1000, state := none }

def storeW : AuthStore := [("codeA", adW)]

def reqW : TokenRequest :=
  { grant_type := some "authorization_code", client_id := some "deapi-mcp",
    client_secret := some "0123456789abc", code := some "codeA", code_verifier := some "a",
    redirect_uri := some "https://cb.example/x", refresh_token := none }

/-- Witness for C1 at concrete inputs. -/
theorem C1_one_time_code_witness :
    (token_endpoint sampleEnc sampleDec "https://api.deapi.ai" "k" 0 0 reqW storeW).1 =
      .ok (create_jwt sampleEnc "https://api.deapi.ai" "k" 0 "0123456789abc" DEFAULT_CLIENT_ID)
        "Bearer" JWT_EXPIRATION_SECONDS
        (create_refresh_token sampleEnc "https://api.deapi.ai" "k" 0 "0123456789abc"
          DEFAULT_CLIENT_ID) ∧
    ((token_endpoint sampleEnc sampleDec "https://api.deapi.ai" "k" 0 0 reqW storeW).2).lookup
      "codeA" = none ∧
    (token_endpoint sampleEnc sampleDec "https://api.deapi.ai" "k" 0 0 reqW
        (token_endpoint sampleEnc sampleDec "https://api.deapi.ai" "k" 0 0 reqW storeW).2).1 =
      .err "invalid_grant" "Invalid authorization code" 400 :=
  C1_one_time_code sampleEnc sampleDec "https://api.deapi.ai" "k" 0 0 storeW "codeA" "a"
    "0123456789abc" adW reqW rfl rfl rfl (by decide) rfl (by decide) rfl (by decide) (by decide)
    (by decide) (by decide) rfl (by decide)

/-- Witness for C3 at concrete inputs: the matching verifier `"a"`
redeems successfully. -/
theorem C3_pkce_binding_witness :
    (token_endpoint sampleEnc sampleDec "https://api.deapi.ai" "k" 0 0 reqW storeW).1.isOk =
      true :=
  (C3_pkce_binding sampleEnc sampleDec "https://api.deapi.ai" "k" 0 0 storeW "codeA" "a"
    "0123456789abc" adW reqW rfl rfl rfl (by decide) rfl (by decide) rfl (by decide) (by decide)
    (by decide) (by decide) rfl).mpr (by decide)

/-- Witness for C4 (amended) at concrete inputs: a missing verifier
gives `invalid_request`, a mismatching verifier `"b"` gives
`invalid_grant`. -/
theorem C4_pkce_error_codes_witness :
    (token_endpoint sampleEnc sampleDec "https://api.deapi.ai" "k" 0 0
      { reqW with code_verifier := none } storeW).1 =
      .err "invalid_request" "code_verifier is required" 400 ∧
    (token_endpoint sampleEnc sampleDec "https://api.deapi.ai" "k" 0 0
      { reqW with code_verifier := some "b" } storeW).1 =
      .err "invalid_grant" "Invalid code_verifier" 400 :=
  ⟨(C4_pkce_error_codes sampleEnc sampleDec "https://api.deapi.ai" "k" 0 0 storeW "codeA" adW
      { reqW with code_verifier := none } rfl rfl rfl (by decide) (by decide) (by decide)
      rfl).1 rfl,
   (C4_pkce_error_codes sampleEnc sampleDec "https://api.deapi.ai" "k" 0 0 storeW "codeA" adW
      { reqW with code_verifier := some "b" } rfl rfl rfl (by decide) (by decide) (by decide)
      rfl).2 "b" rfl (by decide) (by decide)⟩

/-- Witness for C10 at concrete inputs: a 5-character `client_secret`
triggers `invalid_client` yet consumes the code. -/
theorem C10_code_consumed_before_secret_check_witness :
    (token_endpoint sampleEnc sampleDec "https://api.deapi.ai" "k" 0 0
      { reqW with client_secret := some "short" } storeW).1 =
      .err "invalid_client" "Invalid client_secret (Deapi token)" 401 ∧
    ((token_endpoint sampleEnc sampleDec "https://api.deapi.ai" "k" 0 0
      { reqW with client_secret := some "short" } storeW).2).lookup "codeA" = none ∧
    (token_endpoint sampleEnc sampleDec "https://api.deapi.ai" "k" 0 0 reqW
        (token_endpoint sampleEnc sampleDec "https://api.deapi.ai" "k" 0 0
          { reqW with client_secret := some "short" } storeW).2).1 =
      .err "invalid_grant" "Invalid authorization code" 400 :=
  C10_code_consumed_before_secret_check sampleEnc sampleDec "https://api.deapi.ai" "k" 0 0 storeW
    "codeA" "a" adW { reqW with client_secret := some "short" } reqW rfl rfl rfl (by decide) rfl
    (by decide) (by decide) (by decide) rfl (by decide) (Or.inr (by decide)) rfl rfl rfl

/-- Witness for C2 (amended) at concrete inputs, covering each error
channel. -/
theorem C2_error_channels_witness :
    ((authorize_endpoint 0 "ac"
        { client_id := some "evil", redirect_uri := some "https://cb.example/ok", state := none,
          code_challenge := none, code_challenge_method := none, response_type := none } []).1 =
      .redirect "https://cb.example/ok"
        ([("error", "unauthorized_client"), ("error_description", "Invalid client_id")] ++
          stateParam none)) ∧
    ((authorize_endpoint 0 "ac"
        { client_id := some "evil", redirect_uri := none, state := none,
          code_challenge := none, code_challenge_method := none, response_type := none } []).1 =
      .jsonError "unauthorized_client" none 401) ∧
    ((authorize_endpoint 0 "ac"
        { client_id := some "deapi-mcp", redirect_uri := none, state := none,
          code_challenge := none, code_challenge_method := none, response_type := none } []).1 =
      .jsonError "invalid_request" (some "redirect_uri is required") 400) ∧
    ((authorize_endpoint 0 "ac"
        { client_id := some "deapi-mcp", redirect_uri := some "javascript:alert(1)",
          state := none, code_challenge := none, code_challenge_method := none,
          response_type := none } []).1 =
      .jsonError "invalid_request" (some "redirect_uri must use http or https scheme") 400) ∧
    (∃ params, (authorize_endpoint 0 "ac"
        { client_id := some "deapi-mcp", redirect_uri := some "https://cb.example/ok",
          state := none, code_challenge := some "chal", code_challenge_method := some "S256",
          response_type := some "code" } []).1 =
      .redirect "https://cb.example/ok" params) :=
  ⟨((C2_error_channels 0 "ac" _ []).1 (Or.inr (by decide))).1 (by decide),
   ((C2_error_channels 0 "ac" _ []).1 (Or.inr (by decide))).2 (by decide),
   ((C2_error_channels 0 "ac" _ []).2 rfl).1 (by decide),
   (((C2_error_channels 0 "ac" _ []).2 rfl).2.1 (by decide) (by decide)),
   (((C2_error_channels 0 "ac" _ []).2 rfl).2.2 (by decide) (by decide))⟩

/-! ## Store-size lemmas for the capacity bound -/

theorem dictInsert_length (c : String) (d : AuthCodeData) (s : AuthStore) :
    (dictInsert c d s).length ≤ s.length + 1 := by
  unfold dictInsert
  split
  · simp
  · simp

set_option maxHeartbeats 2000000 in
/-- The token endpoint never grows the store (it only deletes redeemed
or expired codes). -/
theorem token_endpoint_store_shrink (enc : String → String) (dec : String → Option String)
    (iss key : String) (now : ℚ) (tnow : ℤ) (req : TokenRequest) (store : AuthStore) :
    (token_endpoint enc dec iss key now tnow req store).2.length ≤ store.length := by
  unfold token_endpoint
  repeat' split
  all_goals dsimp only
  all_goals repeat' split
  all_goals first
    | exact Nat.le_refl _
    | exact List.length_filter_le _ _

/-- One `/authorize` request preserves the capacity bound. -/
theorem authorize_endpoint_store_bound (now : ℚ) (ac : String) (req : AuthorizeRequest)
    (store : AuthStore) (h : store.length ≤ AUTHORIZATION_CODE_MAX_ENTRIES) :
    (authorize_endpoint now ac req store).2.length ≤ AUTHORIZATION_CODE_MAX_ENTRIES := by
  unfold authorize_endpoint
  split
  · split
    · exact h
    · exact h
  · split
    · exact h
    · split
      · exact h
      · split
        · exact h
        · split
          · exact h
          · dsimp only
            split
            · exact le_trans (List.length_filter_le _ _) h
            · rename_i hcap
              have h1 := Nat.lt_of_not_le hcap
              exact le_trans (dictInsert_length _ _ _) (Nat.succ_le_of_lt h1)

theorem authStep_preserves_bound {s t : AuthStore} (hst : AuthStep s t)
    (h : s.length ≤ AUTHORIZATION_CODE_MAX_ENTRIES) :
    t.length ≤ AUTHORIZATION_CODE_MAX_ENTRIES := by
  cases hst with
  | authorize now ac req s => exact authorize_endpoint_store_bound now ac req s h
  | token enc dec iss key now tnow req s =>
    exact le_trans (token_endpoint_store_shrink enc dec iss key now tnow req s) h

/-- **C6.** Capacity bound with lazy pruning: every store reachable from
the empty initial store holds at most 1000 records; a valid `/authorize`
request first prunes all expired entries, and if the pruned store still
holds 1000 codes the request is rejected with `server_error` and the
store is left exactly as pruned (no new code stored); under capacity,
the new code is inserted into the pruned store. -/
theorem C6_capacity_bound :
    (∀ s : AuthStore, ReachableStore s → s.length ≤ AUTHORIZATION_CODE_MAX_ENTRIES) ∧
    (∀ (now : ℚ) (ac : String) (req : AuthorizeRequest) (store : AuthStore),
      req.client_id = some DEFAULT_CLIENT_ID →
      truthy req.redirect_uri = true →
      validate_redirect_uri (req.redirect_uri.getD "") = true →
      req.response_type = some "code" →
      truthy req.code_challenge = true →
      req.code_challenge_method = some "S256" →
      AUTHORIZATION_CODE_MAX_ENTRIES ≤ (prune_expired_authorization_codes now store).length →
      authorize_endpoint now ac req store =
        (.redirect (req.redirect_uri.getD "")
          ([("error", "server_error"),
            ("error_description", "Server is busy, please try again later")] ++
            stateParam req.state),
          prune_expired_authorization_codes now store)) ∧
    (∀ (now : ℚ) (ac : String) (req : AuthorizeRequest) (store : AuthStore),
      req.client_id = some DEFAULT_CLIENT_ID →
      truthy req.redirect_uri = true →
      validate_redirect_uri (req.redirect_uri.getD "") = true →
      req.response_type = some "code" →
      truthy req.code_challenge = true →
      req.code_challenge_method = some "S256" →
      ¬ AUTHORIZATION_CODE_MAX_ENTRIES ≤ (prune_expired_authorization_codes now store).length →
      authorize_endpoint now ac req store =
        (.redirect (req.redirect_uri.getD "") ([("code", ac)] ++ stateParam req.state),
          dictInsert ac
            { client_id := req.client_id.getD "", redirect_uri := req.redirect_uri.getD "",
              code_challenge := req.code_challenge.getD "",
              expires_at := now + AUTHORIZATION_CODE_EXPIRATION_SECONDS, state := req.state }
            (prune_expired_authorization_codes now store))) := by
  refine ⟨?_, ?_, ?_⟩
  · intro s hs
    induction hs with
    | refl => exact Nat.zero_le _
    | tail _ hstep ih => exact authStep_preserves_bound hstep ih
  · intro now ac req store hcid hru hval hrt hcc hm hcap
    have hguard : ¬ (¬ truthy req.client_id = true ∨ req.client_id ≠ some DEFAULT_CLIENT_ID) := by
      simp [hcid, truthy_some, DEFAULT_CLIENT_ID]
    unfold authorize_endpoint
    rw [if_neg hguard, if_neg (by simp [hru]), if_neg (by simp [hval]),
      if_neg (by simp [hrt]), if_neg (by simp [hcc, hm])]
    dsimp only
    rw [if_pos hcap]
  · intro now ac req store hcid hru hval hrt hcc hm hcap
    have hguard : ¬ (¬ truthy req.client_id = true ∨ req.client_id ≠ some DEFAULT_CLIENT_ID) := by
      simp [hcid, truthy_some, DEFAULT_CLIENT_ID]
    unfold authorize_endpoint
    rw [if_neg hguard, if_neg (by simp [hru]), if_neg (by simp [hval]),
      if_neg (by simp [hrt]), if_neg (by simp [hcc, hm])]
    dsimp only
    rw [if_neg hcap]

def reqAuthW : AuthorizeRequest :=
  { client_id := some "deapi-mcp", redirect_uri := some "https://cb.example/ok", state := none,
    code_challenge := some "chal", code_challenge_method := some "S256",
    response_type := some "code" }

/-- A store of 1000 live (unexpired at time 0) entries. -/
def bigStore : AuthStore := List.replicate 1000 ("c0", adW)

/-- Witness for C6 at concrete inputs: the empty store is reachable and
within bound; a full store of 1000 live codes makes a valid request
fail with `server_error`; the empty store accepts a code into its
pruned form. -/
theorem C6_capacity_bound_witness :
    ([] : AuthStore).length ≤ AUTHORIZATION_CODE_MAX_ENTRIES ∧
    authorize_endpoint 0 "acW" reqAuthW bigStore =
      (.redirect "https://cb.example/ok"
        ([("error", "server_error"),
          ("error_description", "Server is busy, please try again later")] ++ stateParam none),
        prune_expired_authorization_codes 0 bigStore) ∧
    authorize_endpoint 0 "acW" reqAuthW [] =
      (.redirect "https://cb.example/ok" ([("code", "acW")] ++ stateParam none),
        dictInsert "acW"
          { client_id := "deapi-mcp", redirect_uri := "https://cb.example/ok",
            code_challenge := "chal", expires_at := 0 + AUTHORIZATION_CODE_EXPIRATION_SECONDS,
            state := none }
          (prune_expired_authorization_codes 0 [])) := by
  have hbig : AUTHORIZATION_CODE_MAX_ENTRIES ≤
      (prune_expired_authorization_codes 0 bigStore).length := by
    have hall : prune_expired_authorization_codes 0 bigStore = bigStore := by
      apply List.filter_eq_self.mpr
      intro a ha
      rw [List.eq_of_mem_replicate ha]
      decide
    rw [hall]
    simp [bigStore, AUTHORIZATION_CODE_MAX_ENTRIES]
  exact ⟨C6_capacity_bound.1 [] Relation.ReflTransGen.refl,
    C6_capacity_bound.2.1 0 "acW" reqAuthW bigStore rfl (by decide) (by decide) rfl (by decide)
      rfl hbig,
    C6_capacity_bound.2.2 0 "acW" reqAuthW [] rfl (by decide) (by decide) rfl (by decide)
      rfl (by decide)⟩

/-! ## Backoff schedule lemmas -/

theorem schedElapsed_zero (cfg : PollingConfig) : schedElapsed cfg 0 = 0 := rfl

theorem schedDelay_zero (cfg : PollingConfig) (him : cfg.initial_delay ≤ cfg.max_delay) :
    schedDelay cfg 0 = cfg.initial_delay := by
  simp [schedDelay, him]

theorem schedDelay_nonneg (cfg : PollingConfig) (h0 : 0 ≤ cfg.initial_delay)
    (hb : 1 ≤ cfg.backoff_factor) (him : cfg.initial_delay ≤ cfg.max_delay) (k : Nat) :
    0 ≤ schedDelay cfg k := by
  apply le_min
  · exact mul_nonneg h0 (pow_nonneg (le_trans zero_le_one hb) k)
  · exact le_trans h0 him

theorem schedElapsed_succ (cfg : PollingConfig) (k : Nat) :
    schedElapsed cfg (k + 1) = schedElapsed cfg k + schedDelay cfg k := by
  simp [schedElapsed, List.range_succ]

theorem schedElapsed_mono (cfg : PollingConfig) (h0 : 0 ≤ cfg.initial_delay)
    (hb : 1 ≤ cfg.backoff_factor) (him : cfg.initial_delay ≤ cfg.max_delay)
    {j k : Nat} (h : j ≤ k) : schedElapsed cfg j ≤ schedElapsed cfg k := by
  induction k with
  | zero => simp_all
  | succ n ih =>
    rcases Nat.lt_or_ge j (n + 1) with hj | hj
    · have hjn : j ≤ n := by omega
      calc schedElapsed cfg j ≤ schedElapsed cfg n := ih hjn
        _ ≤ schedElapsed cfg n + schedDelay cfg n := by
            have := schedDelay_nonneg cfg h0 hb him n
            linarith
        _ = schedElapsed cfg (n + 1) := (schedElapsed_succ cfg n).symm
    · have : j = n + 1 := by omega
      subst this
      exact le_refl _

/-- Growing the scheduled delay once more lands exactly on the closed
form `min (initial * backoff ^ (k+1)) max`. -/
theorem calculate_next_schedDelay (cfg : PollingConfig) (k a : Nat)
    (hb : 1 ≤ cfg.backoff_factor) (h0 : 0 ≤ cfg.initial_delay)
    (him : cfg.initial_delay ≤ cfg.max_delay) :
    calculate_next_delay cfg (schedDelay cfg k) a = schedDelay cfg (k + 1) := by
  unfold calculate_next_delay schedDelay
  rcases le_or_lt (cfg.initial_delay * cfg.backoff_factor ^ k) cfg.max_delay with h | h
  · rw [min_eq_left h, pow_succ, ← mul_assoc]
  · have hmax0 : 0 ≤ cfg.max_delay := le_trans h0 him
    rw [min_eq_right h.le]
    have h1 : cfg.max_delay ≤ cfg.max_delay * cfg.backoff_factor :=
      le_mul_of_one_le_right hmax0 hb
    have h2 : cfg.max_delay ≤ cfg.initial_delay * cfg.backoff_factor ^ (k + 1) := by
      have h3 : cfg.initial_delay * cfg.backoff_factor ^ k ≤
          cfg.initial_delay * cfg.backoff_factor ^ (k + 1) := by
        apply mul_le_mul_of_nonneg_left _ h0
        exact pow_le_pow_right₀ hb (Nat.le_succ k)
      linarith
    rw [min_eq_right h1, min_eq_right h2]

/-! ## Single-iteration lemmas for the polling loop -/

/-- A non-terminal iteration (status `processing`/`pending`, or a
retryable error while `attempt < 3`) sleeps the current delay, grows it,
and loops. Stated at the invariant state after `j` completed checks. -/
theorem pollLoop_advance (cfg : PollingConfig) (stub : Nat → PollStep) (job_id : String)
    (hb : 1 ≤ cfg.backoff_factor) (h0 : 0 ≤ cfg.initial_delay)
    (him : cfg.initial_delay ≤ cfg.max_delay) (j fuel : Nat)
    (hnt : (∃ d, stub (j + 1) = PollStep.ok d ∧ d.status ≠ JobStatusM.done ∧
        d.status ≠ JobStatusM.failed) ∨
      (∃ e, stub (j + 1) = PollStep.raise e ∧ e.status_code ≠ some 404 ∧ j + 1 < 3))
    (hT : schedElapsed cfg j ≤ cfg.timeout) :
    pollLoop cfg stub job_id (fuel + 1) j (schedElapsed cfg j) (schedDelay cfg j)
      ((List.range j).map (schedDelay cfg)) =
    pollLoop cfg stub job_id fuel (j + 1) (schedElapsed cfg (j + 1)) (schedDelay cfg (j + 1))
      ((List.range (j + 1)).map (schedDelay cfg)) := by
  have hT' : ¬ cfg.timeout < schedElapsed cfg j := not_lt.mpr hT
  rcases hnt with ⟨d, hd, hnd, hnf⟩ | ⟨e, he, h404, hj3⟩
  · simp only [pollLoop, if_neg hT', hd, if_neg hnd, if_neg hnf,
      calculate_next_schedDelay cfg j (j + 1) hb h0 him, ← schedElapsed_succ,
      List.range_succ, List.map_append, List.map_cons, List.map_nil]
  · simp only [pollLoop, if_neg hT', he, if_neg h404, if_pos hj3,
      calculate_next_schedDelay cfg j (j + 1) hb h0 him, ← schedElapsed_succ,
      List.range_succ, List.map_append, List.map_cons, List.map_nil]

/-- An iteration whose status check returns `done` returns the success
`ToolResult` with the current elapsed time and attempt count. -/
theorem pollLoop_step_done (cfg : PollingConfig) (stub : Nat → PollStep) (job_id : String)
    (fuel j : Nat) (elapsed delay : ℚ) (sleeps : List ℚ) (d : JobStatusData)
    (hd : stub (j + 1) = PollStep.ok d) (hds : d.status = JobStatusM.done)
    (hT : ¬ cfg.timeout < elapsed) :
    pollLoop cfg stub job_id (fuel + 1) j elapsed delay sleeps =
      some (PollOutcome.returned
        { success := true, job_id := some job_id, status := some .done,
          result := d.result, result_url := d.result_url, error := none,
          metadata := some (elapsed, j + 1) }, sleeps) := by
  simp only [pollLoop, if_neg hT, hd, hds]
  simp

/-- An iteration whose status check raises a retryable error at
`attempt ≥ 3` gives up and returns the failure `ToolResult` carrying
`str(e)`. -/
theorem pollLoop_step_giveup (cfg : PollingConfig) (stub : Nat → PollStep) (job_id : String)
    (fuel j : Nat) (elapsed delay : ℚ) (sleeps : List ℚ) (e : APIError)
    (he : stub (j + 1) = PollStep.raise e) (h404 : e.status_code ≠ some 404)
    (hj3 : ¬ j + 1 < 3) (hT : ¬ cfg.timeout < elapsed) :
    pollLoop cfg stub job_id (fuel + 1) j elapsed delay sleeps =
      some (PollOutcome.returned
        { success := false, job_id := some job_id, status := none,
          result := none, result_url := none, error := some (.apiError e.message),
          metadata := some (elapsed, j + 1) }, sleeps) := by
  simp only [pollLoop, if_neg hT, he, if_neg h404, if_neg hj3]

/-- The initial loop state is the invariant state after 0 checks. -/
theorem poll_start (cfg : PollingConfig) (stub : Nat → PollStep) (job_id : String)
    (fuel : Nat) (him : cfg.initial_delay ≤ cfg.max_delay) :
    poll_until_complete cfg stub job_id fuel =
    pollLoop cfg stub job_id fuel 0 (schedElapsed cfg 0) (schedDelay cfg 0)
      ((List.range 0).map (schedDelay cfg)) := by
  unfold poll_until_complete
  rw [schedDelay_zero cfg him]
  rfl

/-- **C7.** Polling success path and backoff schedule: if the status
check reports a non-terminal `processing` status on the first N-1
attempts and `done` on the N-th, `poll_until_complete` returns the
success result after exactly N checks, with `metadata.attempts = N`,
and the delay slept after the k-th check (k = 1..N-1) is
`min (initial_delay * backoff_factor^(k-1)) max_delay`. -/
theorem C7_polling_success (cfg : PollingConfig) (stub : Nat → PollStep) (job_id : String)
    (N fuel : Nat) (dN : JobStatusData)
    (hb : 1 ≤ cfg.backoff_factor) (h0 : 0 ≤ cfg.initial_delay)
    (him : cfg.initial_delay ≤ cfg.max_delay)
    (hN : 1 ≤ N) (hfuel : N ≤ fuel)
    (hproc : ∀ k, 1 ≤ k → k < N → ∃ d, stub k = PollStep.ok d ∧
      d.status = JobStatusM.processing)
    (hdN : stub N = PollStep.ok dN) (hds : dN.status = JobStatusM.done)
    (hT : schedElapsed cfg (N - 1) ≤ cfg.timeout) :
    poll_until_complete cfg stub job_id fuel =
      some (PollOutcome.returned
        { success := true, job_id := some job_id, status := some .done,
          result := dN.result, result_url := dN.result_url, error := none,
          metadata := some (schedElapsed cfg (N - 1), N) },
        (List.range (N - 1)).map (schedDelay cfg)) := by
  have main : ∀ n j, j + n = N - 1 →
      pollLoop cfg stub job_id (fuel - j) j (schedElapsed cfg j) (schedDelay cfg j)
        ((List.range j).map (schedDelay cfg)) =
      some (PollOutcome.returned
        { success := true, job_id := some job_id, status := some .done,
          result := dN.result, result_url := dN.result_url, error := none,
          metadata := some (schedElapsed cfg (N - 1), N) },
        (List.range (N - 1)).map (schedDelay cfg)) := by
    intro n
    induction n with
    | zero =>
      intro j hj
      have hjN : j = N - 1 := by omega
      subst hjN
      obtain ⟨m, hm⟩ : ∃ m, fuel - (N - 1) = m + 1 := ⟨fuel - (N - 1) - 1, by omega⟩
      rw [hm]
      have hNs : N - 1 + 1 = N := by omega
      rw [pollLoop_step_done cfg stub job_id m (N - 1) _ _ _ dN (by rw [hNs]; exact hdN) hds
        (not_lt.mpr hT)]
      rw [hNs]
    | succ n ih =>
      intro j hj
      obtain ⟨m, hm⟩ : ∃ m, fuel - j = m + 1 := ⟨fuel - j - 1, by omega⟩
      rw [hm]
      obtain ⟨d, hd, hs⟩ := hproc (j + 1) (by omega) (by omega)
      have hnt : (∃ d, stub (j + 1) = PollStep.ok d ∧ d.status ≠ JobStatusM.done ∧
          d.status ≠ JobStatusM.failed) ∨
          (∃ e, stub (j + 1) = PollStep.raise e ∧ e.status_code ≠ some 404 ∧ j + 1 < 3) :=
        Or.inl ⟨d, hd, by simp [hs], by simp [hs]⟩
      have hTj : schedElapsed cfg j ≤ cfg.timeout :=
        le_trans (schedElapsed_mono cfg h0 hb him (by omega)) hT
      rw [pollLoop_advance cfg stub job_id hb h0 him j m hnt hTj]
      have hm2 : m = fuel - (j + 1) := by omega
      rw [hm2]
      exact ih (j + 1) (by omega)
  have h := main (N - 1) 0 (by omega)
  rw [Nat.sub_zero] at h
  rw [poll_start cfg stub job_id fuel him]
  exact h

/-- Status stub for the C7 witness: `processing` on the first three
checks, `done` with a result URL on the fourth. -/
def stubC7 : Nat → PollStep := fun k =>
  if k < 4 then .ok ⟨.processing, none, none, none⟩
  else .ok ⟨.done, none, none, some "https://res.example/video.mp4"⟩

/-- Witness for C7: the video profile, N = 4. -/
theorem C7_polling_success_witness :
    poll_until_complete polling_video stubC7 "job-1" 4 =
      some (PollOutcome.returned
        { success := true, job_id := some "job-1", status := some .done,
          result := none, result_url := some "https://res.example/video.mp4", error := none,
          metadata := some (schedElapsed polling_video 3, 4) },
        (List.range 3).map (schedDelay polling_video)) :=
  C7_polling_success polling_video stubC7 "job-1" 4 4
    ⟨.done, none, none, some "https://res.example/video.mp4"⟩
    (by with_unfolding_all decide) (by with_unfolding_all decide) (by with_unfolding_all decide)
    (by decide) (by decide)
    (fun k hk1 hk4 => ⟨⟨.processing, none, none, none⟩, by unfold stubC7; rw [if_pos hk4], rfl⟩)
    rfl rfl (by with_unfolding_all decide)

/-- **C8.** Transient-error retry bound: a retryable (non-404) error on
exactly the first two status checks followed by success on the third
yields a success result after 3 attempts with the growing delays
between attempts; a stub that always raises a retryable error makes the
session stop after exactly 3 attempts with a failure result carrying
the error text. -/
theorem C8_retry_bound (cfg : PollingConfig) (stub : Nat → PollStep) (job_id : String)
    (hb : 1 ≤ cfg.backoff_factor) (h0 : 0 ≤ cfg.initial_delay)
    (him : cfg.initial_delay ≤ cfg.max_delay) :
    (∀ (fuel : Nat) (e₁ e₂ : APIError) (d : JobStatusData),
      3 ≤ fuel →
      stub 1 = PollStep.raise e₁ → e₁.status_code ≠ some 404 →
      stub 2 = PollStep.raise e₂ → e₂.status_code ≠ some 404 →
      stub 3 = PollStep.ok d → d.status = JobStatusM.done →
      schedElapsed cfg 2 ≤ cfg.timeout →
      poll_until_complete cfg stub job_id fuel =
        some (PollOutcome.returned
          { success := true, job_id := some job_id, status := some .done,
            result := d.result, result_url := d.result_url, error := none,
            metadata := some (schedElapsed cfg 2, 3) },
          (List.range 2).map (schedDelay cfg))) ∧
    (∀ (fuel : Nat) (e : Nat → APIError),
      3 ≤ fuel →
      (∀ k, 1 ≤ k → k ≤ 3 → stub k = PollStep.raise (e k) ∧ (e k).status_code ≠ some 404) →
      schedElapsed cfg 2 ≤ cfg.timeout →
      poll_until_complete cfg stub job_id fuel =
        some (PollOutcome.returned
          { success := false, job_id := some job_id, status := none,
            result := none, result_url := none, error := some (.apiError (e 3).message),
            metadata := some (schedElapsed cfg 2, 3) },
          (List.range 2).map (schedDelay cfg))) := by
  constructor
  · intro fuel e₁ e₂ d hfuel h1 h1c h2 h2c h3 hds hT
    obtain ⟨m, hm⟩ : ∃ m, fuel = m + 3 := ⟨fuel - 3, by omega⟩
    subst hm
    rw [poll_start cfg stub job_id _ him]
    have hs1 : m + 3 = (m + 2) + 1 := by omega
    rw [hs1, pollLoop_advance cfg stub job_id hb h0 him 0 (m + 2)
      (Or.inr ⟨e₁, h1, h1c, by omega⟩)
      (le_trans (schedElapsed_mono cfg h0 hb him (by omega)) hT)]
    have hs2 : m + 2 = (m + 1) + 1 := by omega
    rw [hs2, pollLoop_advance cfg stub job_id hb h0 him 1 (m + 1)
      (Or.inr ⟨e₂, h2, h2c, by omega⟩)
      (le_trans (schedElapsed_mono cfg h0 hb him (by omega)) hT)]
    rw [pollLoop_step_done cfg stub job_id m 2 _ _ _ d h3 hds (not_lt.mpr hT)]
  · intro fuel e hfuel he hT
    obtain ⟨m, hm⟩ : ∃ m, fuel = m + 3 := ⟨fuel - 3, by omega⟩
    subst hm
    rw [poll_start cfg stub job_id _ him]
    have hs1 : m + 3 = (m + 2) + 1 := by omega
    rw [hs1, pollLoop_advance cfg stub job_id hb h0 him 0 (m + 2)
      (Or.inr ⟨e 1, (he 1 (by omega) (by omega)).1, (he 1 (by omega) (by omega)).2, by omega⟩)
      (le_trans (schedElapsed_mono cfg h0 hb him (by omega)) hT)]
    have hs2 : m + 2 = (m + 1) + 1 := by omega
    rw [hs2, pollLoop_advance cfg stub job_id hb h0 him 1 (m + 1)
      (Or.inr ⟨e 2, (he 2 (by omega) (by omega)).1, (he 2 (by omega) (by omega)).2, by omega⟩)
      (le_trans (schedElapsed_mono cfg h0 hb him (by omega)) hT)]
    rw [pollLoop_step_giveup cfg stub job_id m 2 _ _ _ (e 3) (he 3 (by omega) (by omega)).1
      (he 3 (by omega) (by omega)).2 (by omega) (not_lt.mpr hT)]

/-- Status stub for the C8 success-after-retries witness. -/
def stubC8a : Nat → PollStep := fun k =>
  if k ≤ 2 then .raise ⟨"upstream hiccup", some 500⟩
  else .ok ⟨.done, none, some "transcript", none⟩

/-- Status stub for the C8 give-up witness. -/
def stubC8b : Nat → PollStep := fun _ => .raise ⟨"upstream down", some 500⟩

/-- Witness for C8 on the audio profile: two retryable errors then
success, and three retryable errors then give-up. -/
theorem C8_retry_bound_witness :
    poll_until_complete polling_audio stubC8a "job-2" 3 =
      some (PollOutcome.returned
        { success := true, job_id := some "job-2", status := some .done,
          result := some "transcript", result_url := none, error := none,
          metadata := some (schedElapsed polling_audio 2, 3) },
        (List.range 2).map (schedDelay polling_audio)) ∧
    poll_until_complete polling_audio stubC8b "job-3" 3 =
      some (PollOutcome.returned
        { success := false, job_id := some "job-3", status := none,
          result := none, result_url := none, error := some (.apiError "upstream down"),
          metadata := some (schedElapsed polling_audio 2, 3) },
        (List.range 2).map (schedDelay polling_audio)) :=
  ⟨(C8_retry_bound polling_audio stubC8a "job-2" (by with_unfolding_all decide)
      (by with_unfolding_all decide) (by with_unfolding_all decide)).1 3
      ⟨"upstream hiccup", some 500⟩ ⟨"upstream hiccup", some 500⟩
      ⟨.done, none, some "transcript", none⟩ (by decide) rfl (by decide) rfl (by decide) rfl rfl
      (by with_unfolding_all decide),
   (C8_retry_bound polling_audio stubC8b "job-3" (by with_unfolding_all decide)
      (by with_unfolding_all decide) (by with_unfolding_all decide)).2 3
      (fun _ => ⟨"upstream down", some 500⟩) (by decide)
      (fun k hk1 hk3 => ⟨rfl, by simp⟩) (by with_unfolding_all decide)⟩

/-- **C9 counterexample.** A timed-out session is surfaced by
`poll_with_context` as a failure result whose error message carries the
elapsed time, but with `metadata = None`: the attempt count is not
carried anywhere in the result, contrary to the claim. -/
theorem C9_counterexample :
    poll_with_context ⟨1, 1, 1/2, 2⟩ (fun _ => PollStep.ok ⟨.processing, none, none, none⟩)
        "j" 3 =
      some ({ success := false, job_id := some "j", status := none, result := none,
              result_url := none, error := some (.timedOutMsg "j" 1 (1/2)),
              metadata := none }, [1]) := by
  with_unfolding_all decide

/-- **C9 (amended).** The timeout comparison is made at the start of
every loop iteration, before the status check: once elapsed time
exceeds the category's timeout the iteration resolves immediately to
the distinct `PollingTimeoutError` outcome (for any stub — no status
check is consulted); at the `poll_with_context` boundary this becomes a
structured failure result whose error message carries the elapsed time
and the timeout, with `metadata` (and hence the attempt count)
absent. -/
theorem C9_timeout_behaviour :
    (∀ (cfg : PollingConfig) (stub : Nat → PollStep) (job_id : String) (fuel j : Nat)
        (elapsed delay : ℚ) (sleeps : List ℚ),
      cfg.timeout < elapsed →
      pollLoop cfg stub job_id (fuel + 1) j elapsed delay sleeps =
        some (.timedOutExc job_id elapsed cfg.timeout, sleeps)) ∧
    (∀ (cfg : PollingConfig) (stub : Nat → PollStep) (job_id jid : String) (fuel : Nat)
        (elapsed tmo : ℚ) (sleeps : List ℚ),
      poll_until_complete cfg stub job_id fuel = some (.timedOutExc jid elapsed tmo, sleeps) →
      poll_with_context cfg stub job_id fuel =
        some ({ success := false, job_id := some jid, status := none, result := none,
                result_url := none, error := some (.timedOutMsg jid elapsed tmo),
                metadata := none }, sleeps)) := by
  constructor
  · intro cfg stub job_id fuel j elapsed delay sleeps h
    simp only [pollLoop, if_pos h]
  · intro cfg stub job_id jid fuel elapsed tmo sleeps h
    unfold poll_with_context
    rw [h]

/-- Witness for C9 (amended) at concrete inputs. -/
theorem C9_timeout_behaviour_witness :
    pollLoop ⟨1, 1, 1/2, 2⟩ (fun _ => PollStep.ok ⟨.processing, none, none, none⟩) "j" 3 1 1 1
        [1] =
      some (.timedOutExc "j" 1 (1/2), [1]) ∧
    poll_with_context ⟨1, 1, 1/2, 2⟩ (fun _ => PollStep.ok ⟨.processing, none, none, none⟩)
        "j" 3 =
      some ({ success := false, job_id := some "j", status := none, result := none,
              result_url := none, error := some (.timedOutMsg "j" 1 (1/2)),
              metadata := none }, [1]) :=
  ⟨C9_timeout_behaviour.1 ⟨1, 1, 1/2, 2⟩ (fun _ => PollStep.ok ⟨.processing, none, none, none⟩)
      "j" 2 1 1 1 [1] (by with_unfolding_all decide),
   C9_timeout_behaviour.2 ⟨1, 1, 1/2, 2⟩ (fun _ => PollStep.ok ⟨.processing, none, none, none⟩)
      "j" "j" 3 1 (1/2) [1] (by with_unfolding_all decide)⟩

end DeapiMCP
